import Mathlib

/-!
Verification of the MacMocker test-suite orchestrator.

Shallow embedding of the repository's core: the result record and mark calls
of tests/base_test.py, the orchestration loops of core/test_runner.py and
src/test_runner.py, the aggregation of core/test_runner.py TestRunner.summary
and reporter.py Reporter.get_summary, the report serializers, the notification
sinks, and the exit-code derivation of src/test_runner.py run() and main.py.

Conventions: Python wall-clock timestamps are modeled as exact rationals;
Python floats are modeled as exact rationals; dynamic module resolution and
the external test implementations behind the BaseTest capability contract are
modeled by an explicit environment record.
-/

namespace MacMocker

/-- tests/base_test.py TestResult: the per-test result record. The initial
status assigned in the constructor is the string "not_run". -/
structure TestResult where
  test_name : String
  status : String
  start_time : Option ℚ
  end_time : Option ℚ
  duration_seconds : ℚ
  message : String
  error_details : Option String
  screenshots : List String
  logs : List String
deriving Repr, DecidableEq

/-- tests/base_test.py TestResult constructor: status starts as "not_run",
timestamps unset, duration 0, empty message, no error detail, empty lists. -/
def TestResult.make (test_name : String) : TestResult :=
  { test_name := test_name
    status := "not_run"
    start_time := none
    end_time := none
    duration_seconds := 0
    message := ""
    error_details := none
    screenshots := []
    logs := [] }

/-- mark_started: records the start timestamp and moves status to "running". -/
def TestResult.mark_started (r : TestResult) (now : ℚ) : TestResult :=
  { r with start_time := some now, status := "running" }

/-- Duration update shared by mark_passed and mark_failed: end minus start when
a start timestamp exists, otherwise the field is left as it was. -/
def TestResult.durationFrom (r : TestResult) (now : ℚ) : ℚ :=
  match r.start_time with
  | some s => now - s
  | none => r.duration_seconds

/-- mark_passed: sets the end timestamp, derives the duration, status "passed". -/
def TestResult.mark_passed (r : TestResult) (now : ℚ) (message : String) : TestResult :=
  { r with end_time := some now
           duration_seconds := r.durationFrom now
           status := "passed"
           message := message }

/-- mark_failed: sets the end timestamp, derives the duration, status "failed",
stores the message and the optional error detail. -/
def TestResult.mark_failed (r : TestResult) (now : ℚ) (message : String)
    (error_details : Option String) : TestResult :=
  { r with end_time := some now
           duration_seconds := r.durationFrom now
           status := "failed"
           message := message
           error_details := error_details }

/-- mark_skipped: status "skipped" with the reason as message; no timestamps. -/
def TestResult.mark_skipped (r : TestResult) (reason : String) : TestResult :=
  { r with status := "skipped", message := reason }

/-- add_screenshot: appends a screenshot path. -/
def TestResult.add_screenshot (r : TestResult) (path : String) : TestResult :=
  { r with screenshots := r.screenshots ++ [path] }

/-- add_log: appends a log line. -/
def TestResult.add_log (r : TestResult) (line : String) : TestResult :=
  { r with logs := r.logs ++ [line] }

/-- One call a test (or the orchestrator) makes against its TestResult: the
mutating surface of tests/base_test.py TestResult. -/
inductive MarkOp where
  | started (now : ℚ)
  | passed (now : ℚ) (message : String)
  | failed (now : ℚ) (message : String) (error_details : Option String)
  | skipped (reason : String)
  | screenshot (path : String)
  | logLine (line : String)
deriving Repr, DecidableEq

/-- Applying one mark call to a result record. -/
def TestResult.apply (r : TestResult) : MarkOp → TestResult
  | .started now => r.mark_started now
  | .passed now message => r.mark_passed now message
  | .failed now message details => r.mark_failed now message details
  | .skipped reason => r.mark_skipped reason
  | .screenshot path => r.add_screenshot path
  | .logLine line => r.add_log line

/-- The result record produced by a fresh TestResult after a sequence of
mark calls (BaseTest.__init__ builds the record, run() performs the calls). -/
def runOps (name : String) (ops : List MarkOp) : TestResult :=
  ops.foldl TestResult.apply (TestResult.make name)

/-- The sequence of statuses a result record passes through under a sequence of
mark calls, beginning with the constructor's initial status. -/
def statusTrajectory (name : String) (ops : List MarkOp) : List String :=
  (List.scanl TestResult.apply (TestResult.make name) ops).map (fun r => r.status)

/-- One configured suite entry (a tests[] element of the YAML suite): the
module reference plus the per-test options the orchestrator reads. The
enabled key may be absent. -/
structure TestEntry where
  module : String
  enabled : Option Bool
  timeout : Option ℚ
  delay_after : Option ℚ
  screenshot_on_failure : Option Bool
deriving Repr, DecidableEq

/-- test_config.get("enabled", True): the enabled flag defaults to true when
the key is absent (config_loader.py get_enabled_tests and
core/test_runner.py run_all_tests both read it this way). -/
def TestEntry.enabledValue (e : TestEntry) : Bool :=
  e.enabled.getD true

/-- config_loader.py ConfigLoader.get_enabled_tests: the enabled entries in
original suite order. -/
def get_enabled_tests (tests : List TestEntry) : List TestEntry :=
  tests.filter TestEntry.enabledValue

/-- Abstracts importlib resolution and the external test implementations
behind the BaseTest capability contract:
load_class e = false models _load_test_class returning None / raising
(ImportError or AttributeError on a malformed or unresolvable reference);
name_of models get_name() of the resolved implementation;
exec_outcome gives either the message of an uncaught exception raised while
constructing or running the test, or the sequence of mark calls the test's
run() performs on its result record. -/
structure TestEnv where
  load_class : TestEntry → Bool
  name_of : TestEntry → String
  exec_outcome : TestEntry → Except String (List MarkOp)

/-- core/test_runner.py TestRunner._run_single_test, with the mark-call
sequence exposed: on load failure a fresh record for the module path is marked
failed with "Failed to load test module" (no detail); on an exception during
construction or run() a fresh record is marked failed with "Test crashed" and
the exception text as detail; otherwise the test's own mark calls run against
its own fresh record. The timestamp of the orchestrator's own mark_failed
calls is irrelevant to every property proved here and is fixed at 0. -/
def runSingleOps (env : TestEnv) (e : TestEntry) : String × List MarkOp :=
  if env.load_class e then
    match env.exec_outcome e with
    | .ok ops => (env.name_of e, ops)
    | .error msg => (e.module, [.failed 0 "Test crashed" (some msg)])
  else
    (e.module, [.failed 0 "Failed to load test module" none])

/-- core/test_runner.py TestRunner._run_single_test: the result record it
returns for one entry. -/
def runSingleTest (env : TestEnv) (e : TestEntry) : TestResult :=
  runOps (runSingleOps env e).1 (runSingleOps env e).2

/-- core/test_runner.py TestRunner.run_all_tests: iterate the configured
entries in order, skip an entry whose enabled flag is false (default true),
and append exactly one result per attempted entry. -/
def run_all_tests (env : TestEnv) (tests : List TestEntry) : List TestResult :=
  tests.foldl
    (fun results tc =>
      if tc.enabledValue then results ++ [runSingleTest env tc] else results)
    []

/-- The summary record built by core/test_runner.py TestRunner.summary. The
success_rate carries the float passed/total*100 as an exact rational. -/
structure Summary where
  total : ℕ
  passed : ℕ
  failed : ℕ
  skipped : ℕ
  success_rate : ℚ
deriving Repr, DecidableEq

/-- core/test_runner.py TestRunner.summary (the same counting also appears in
core/reporter.py Reporter._calculate_summary): the length of the result list
and the number of results whose status equals each terminal string, plus the
unrounded ratio passed/total*100, or 0 when the list is empty. -/
def summary (results : List TestResult) : Summary :=
  { total := results.length
    passed := results.countP (fun r => r.status == "passed")
    failed := results.countP (fun r => r.status == "failed")
    skipped := results.countP (fun r => r.status == "skipped")
    success_rate :=
      if 0 < results.length then
        (results.countP (fun r => r.status == "passed") : ℚ) / (results.length : ℚ) * 100
      else 0 }

/-- Round-half-to-even to the nearest multiple of 1/10, returned as the
numerator in tenths. This is the exact-rational reading of Python's one-decimal
float formatting: %.1f rounds the IEEE double nearest to the value half to
even, which this matches except within double rounding error of a tie. -/
def roundHalfEvenTenths (q : ℚ) : ℤ :=
  let x := q * 10
  let f := Int.floor x
  let frac := x - (f : ℚ)
  if frac < 1 / 2 then f
  else if (1 : ℚ) / 2 < frac then f + 1
  else if f % 2 = 0 then f else f + 1

/-- The summary dictionary built by reporter.py Reporter.get_summary. Its
success_rate is the string f-formatted one-decimal percentage (or "0%" when no
results were recorded); its numeric content is carried here in tenths of a
percent. The wall-clock start/end/duration fields are omitted: no claim
constrains them. -/
structure ReportSummary where
  total_tests : ℕ
  passed : ℕ
  failed : ℕ
  skipped : ℕ
  success_rate_tenths : ℤ
deriving Repr, DecidableEq

/-- reporter.py Reporter.get_summary over the accumulated result records. -/
def get_summary (results : List TestResult) : ReportSummary :=
  { total_tests := results.length
    passed := results.countP (fun r => r.status == "passed")
    failed := results.countP (fun r => r.status == "failed")
    skipped := results.countP (fun r => r.status == "skipped")
    success_rate_tenths :=
      if 0 < results.length then
        roundHalfEvenTenths
          ((results.countP (fun r => r.status == "passed") : ℚ) / (results.length : ℚ) * 100)
      else 0 }

/-- The success rate exactly as claim C3 words it: 0 when the total count is
0, and otherwise passed/total*100 rounded to one decimal place. Stated from
the claim, to be compared with the source-derived summaries. -/
def claimedSuccessRate (passed total : ℕ) : ℚ :=
  if total = 0 then 0
  else (roundHalfEvenTenths ((passed : ℚ) / (total : ℚ) * 100) : ℚ) / 10

/-- An observable step of the src/test_runner.py run() loop: one read of the
interrupted flag at the top of an iteration, or the execution of one enabled
entry (resolution, construction, run, result recording, taken as one block:
the loop body contains no further flag read). -/
inductive RunEvent where
  | check (idx : ℕ) (value : Bool)
  | execute (idx : ℕ)
deriving Repr, DecidableEq

/-- src/test_runner.py TestRunner.run main loop from iteration i over the
remaining enabled entries. flag j is the value of self.interrupted observed at
the top of iteration j (the field starts False and _handle_interrupt only ever
sets it True, asynchronously). If the flag reads true the loop breaks with no
further work; otherwise the entry is executed in full, its result recorded,
and the loop proceeds. Returns the recorded results and the event trace. -/
def runLoopFrom (env : TestEnv) (flag : ℕ → Bool) :
    ℕ → List TestEntry → List TestResult × List RunEvent
  | i, [] =>
    have := i
    ([], [])
  | i, e :: rest =>
    if flag i then ([], [.check i true])
    else
      let tail := runLoopFrom env flag (i + 1) rest
      (runSingleTest env e :: tail.1, .check i false :: .execute i :: tail.2)

/-- src/test_runner.py TestRunner.run: the loop runs over
get_enabled_tests() starting at iteration 0. -/
def runLoop (env : TestEnv) (flag : ℕ → Bool) (tests : List TestEntry) :
    List TestResult × List RunEvent :=
  runLoopFrom env flag 0 (get_enabled_tests tests)

/-- The result records accumulated by the run (reporter.add_result calls). -/
def runResults (env : TestEnv) (flag : ℕ → Bool) (tests : List TestEntry) :
    List TestResult :=
  (runLoop env flag tests).1

/-- Number of configured enabled entries. -/
def enabledCount (tests : List TestEntry) : ℕ :=
  (get_enabled_tests tests).length

/-- Number of loop iterations that pass the interrupted check: the length of
the initial all-false stretch of flag readings, capped at the entry count. -/
def completedCount (flag : ℕ → Bool) (n : ℕ) : ℕ :=
  ((List.range n).takeWhile (fun i => !flag i)).length

/-- Enabled entries never reached because the interrupt flag was observed. -/
def unreachedCount (flag : ℕ → Bool) (tests : List TestEntry) : ℕ :=
  enabledCount tests - completedCount flag (enabledCount tests)

/-- The canonical event trace of the loop: for n entries of which the first k
pass the flag check, one false check then one execution per completed entry
(absolute indices from i), followed by a single true check when the loop was
cut short. -/
def traceFrom (i k n : ℕ) : List RunEvent :=
  ((List.range k).map (fun j => [RunEvent.check (i + j) false, RunEvent.execute (i + j)])).flatten
    ++ (if k < n then [RunEvent.check (i + k) true] else [])


/-- src/test_runner.py run() epilogue: the exit code computed from the
reporter summary: 1 when summary["failed"] > 0, else 2 when
summary["total_tests"] == 0, else 0. -/
def exitFromSummary (s : ReportSummary) : ℕ :=
  if 0 < s.failed then 1 else if s.total_tests = 0 then 2 else 0

/-- src/test_runner.py run() with its surrounding catch-all: any
orchestrator-level exception (config loading, artifacts setup, reporting)
yields 3; otherwise the exit code derives from the summary of the recorded
results. fatal abstracts whether such an exception occurred. -/
def runExit (env : TestEnv) (flag : ℕ → Bool) (tests : List TestEntry)
    (fatal : Bool) : ℕ :=
  if fatal then 3 else exitFromSummary (get_summary (runResults env flag tests))

/-- src/main.py main(): runner.run() inside a try block whose handlers return
130 on KeyboardInterrupt and 1 on any other exception. kb abstracts a
KeyboardInterrupt reaching main (possible only before TestRunner.__init__
installs the SIGINT and SIGTERM handlers, which afterwards merely set the
cooperative flag); mainFatal abstracts any other exception escaping to main. -/
def mainExit (env : TestEnv) (flag : ℕ → Bool) (tests : List TestEntry)
    (fatal kb mainFatal : Bool) : ℕ :=
  if kb then 130
  else if mainFatal then 1
  else runExit env flag tests fatal

/-- The exit code exactly as claim C4 words it, case by case over the run
outcome, with 130 claimed for a run interrupted by the user. Stated from the
claim, to be compared with the source-derived exit code. -/
def claimedExit (interrupted fatal : Bool) (s : ReportSummary) : ℕ :=
  if interrupted then 130
  else if fatal then 3
  else if 0 < s.failed then 1
  else if s.total_tests = 0 then 2
  else 0

/-- Outcome of one notification post as the reporting sink sees it: a 2xx
success, an HTTP error status, or a network-level request failure. -/
inductive SinkOutcome where
  | ok
  | httpFailure (code : ℕ)
  | requestFailure (message : String)
deriving Repr, DecidableEq

/-- reporter.py Reporter.post_to_api: requests.post then raise_for_status
inside a try whose except requests.RequestException branch logs and returns
False. Both a non-2xx response (HTTPError from raise_for_status) and a
network error are RequestException, so the call always returns a Boolean and
never propagates an exception. -/
def post_to_api (outcome : SinkOutcome) : Bool :=
  match outcome with
  | .ok => true
  | .httpFailure _ => false
  | .requestFailure _ => false

/-- reporter.py Reporter.post_to_teams: same containment as post_to_api. -/
def post_to_teams (outcome : SinkOutcome) : Bool :=
  match outcome with
  | .ok => true
  | .httpFailure _ => false
  | .requestFailure _ => false

/-- The reporting block of the suite configuration read by
get_reporting_config(). -/
structure ReportingConfig where
  api_url : Option String
  api_token : Option String
  teams_webhook : Option String
deriving Repr, DecidableEq

/-- src/test_runner.py run() after the loop: the report is saved, each
configured sink is posted to (the Boolean each post returns is discarded),
then the exit code is computed from the summary. Returns the exit code and
the outcome Booleans of whichever sinks were configured. -/
def runWithSinks (env : TestEnv) (flag : ℕ → Bool) (tests : List TestEntry)
    (cfg : ReportingConfig) (teamsOutcome apiOutcome : SinkOutcome)
    (fatal : Bool) : ℕ × Option Bool × Option Bool :=
  let teamsPosted :=
    match cfg.teams_webhook with
    | some _ => some (post_to_teams teamsOutcome)
    | none => none
  let apiPosted :=
    match cfg.api_url with
    | some _ => some (post_to_api apiOutcome)
    | none => none
  (runExit env flag tests fatal, teamsPosted, apiPosted)

/-- JSON values, the structured report form json.dump serializes. -/
inductive Json where
  | null
  | jbool (b : Bool)
  | jnum (q : ℚ)
  | jstr (s : String)
  | jarr (items : List Json)
  | jobj (fields : List (String × Json))

/-- Object field lookup by key, the parse direction of the round trip. -/
def Json.getField (j : Json) (key : String) : Option Json :=
  match j with
  | .jobj fields => fields.lookup key
  | _ => none

/-- tests/base_test.py TestResult.to_dict: the JSON object serialized per test
by reporter.py save_report. The isoformat timestamp strings are carried as
their numeric time values. -/
def TestResult.to_dict (r : TestResult) : Json :=
  .jobj
    [ ("test_name", .jstr r.test_name),
      ("status", .jstr r.status),
      ("start_time", match r.start_time with | some t => .jnum t | none => .null),
      ("end_time", match r.end_time with | some t => .jnum t | none => .null),
      ("duration_seconds", .jnum r.duration_seconds),
      ("message", .jstr r.message),
      ("error_details", match r.error_details with | some s => .jstr s | none => .null),
      ("screenshots", .jarr (r.screenshots.map Json.jstr)),
      ("logs", .jarr (r.logs.map Json.jstr)) ]

/-- reporter.py get_summary rendered as the JSON object save_report embeds
(wall-clock fields omitted as in ReportSummary). -/
def ReportSummary.toJson (s : ReportSummary) : Json :=
  .jobj
    [ ("total_tests", .jnum s.total_tests),
      ("passed", .jnum s.passed),
      ("failed", .jnum s.failed),
      ("skipped", .jnum s.skipped),
      ("success_rate_tenths", .jnum s.success_rate_tenths) ]

/-- reporter.py Reporter.save_report: the structured artifact dumped to
results_<timestamp>.json: the summary and the ordered per-test dicts. -/
def saveReportJson (results : List TestResult) : Json :=
  .jobj
    [ ("summary", (get_summary results).toJson),
      ("results", .jarr (results.map TestResult.to_dict)) ]

/-- Modelled from the spec: "parsing that form back reproduces identical
per-test status, message, and duration fields" — the repository ships no
reader for its structured report artifact, so the parse direction is taken
from that sentence: extract each per-test status, message and duration by key
from one serialized test object of reporter.py save_report. -/
def decodeTestDict (j : Json) : Option (String × String × ℚ) :=
  match j.getField "status", j.getField "message", j.getField "duration_seconds" with
  | some (.jstr st), some (.jstr msg), some (.jnum d) => some (st, msg, d)
  | _, _, _ => none

/-- Modelled from the spec (same sentence): parse each serialized test object
in order; the whole parse fails as soon as one object is malformed. -/
def decodeTestList : List Json → Option (List (String × String × ℚ))
  | [] => some []
  | j :: rest =>
    match decodeTestDict j, decodeTestList rest with
    | some x, some xs => some (x :: xs)
    | _, _ => none

/-- Modelled from the spec (same sentence): parse the whole structured report
back into the per-test (status, message, duration) list. -/
def decodeResults (j : Json) : Option (List (String × String × ℚ)) :=
  match j.getField "results" with
  | some (.jarr items) => decodeTestList items
  | _ => none

/-- Python attribute lookup on a TestResult instance: exactly the attributes
assigned in tests/base_test.py TestResult.__init__ resolve; any other name
raises AttributeError, modeled as none. -/
def TestResult.getattr (r : TestResult) : String → Option Json
  | "test_name" => some (.jstr r.test_name)
  | "status" => some (.jstr r.status)
  | "start_time" => some (match r.start_time with | some t => .jnum t | none => .null)
  | "end_time" => some (match r.end_time with | some t => .jnum t | none => .null)
  | "duration_seconds" => some (.jnum r.duration_seconds)
  | "message" => some (.jstr r.message)
  | "error_details" => some (match r.error_details with | some s => .jstr s | none => .null)
  | "screenshots" => some (.jarr (r.screenshots.map Json.jstr))
  | "logs" => some (.jarr (r.logs.map Json.jstr))
  | _ => none

/-- core/reporter.py Reporter.generate_json_report per-test object: it reads
r.details and r.duration by attribute lookup on the TestResult imported from
tests.base_test (whose fields are error_details and duration_seconds);
none models the AttributeError such a read raises. -/
def coreTestJson (r : TestResult) : Option Json := do
  let nm ← r.getattr "test_name"
  let st ← r.getattr "status"
  let msg ← r.getattr "message"
  let det ← r.getattr "details"
  let dur ← r.getattr "duration"
  let scr ← r.getattr "screenshots"
  let lg ← r.getattr "logs"
  pure (.jobj
    [ ("name", nm), ("status", st), ("message", msg), ("details", det),
      ("duration", dur), ("screenshots", scr), ("logs", lg) ])

/-- The per-test objects of core/reporter.py generate_json_report, built by a
list comprehension: an AttributeError on any element aborts the whole list. -/
def coreTestList : List TestResult → Option (List Json)
  | [] => some []
  | r :: rest =>
    match coreTestJson r, coreTestList rest with
    | some j, some js => some (j :: js)
    | _, _ => none

/-- core/reporter.py Reporter.generate_json_report: summary plus the per-test
objects; the generated_at wall-clock stamp is carried as null. The whole
report is none as soon as one per-test attribute read raises. -/
def generate_json_report (results : List TestResult) : Option Json := do
  let tests ← coreTestList results
  pure (.jobj
    [ ("generated_at", .null),
      ("summary",
        .jobj
          [ ("total", .jnum (summary results).total),
            ("passed", .jnum (summary results).passed),
            ("failed", .jnum (summary results).failed),
            ("skipped", .jnum (summary results).skipped),
            ("success_rate", .jnum (summary results).success_rate) ]),
      ("tests", .jarr tests) ])

/-! Concrete fixtures used by witnesses and counterexamples. -/

/-- A suite entry with every optional key absent. -/
def entryA : TestEntry :=
  { module := "tests.word_test.WordTest"
    enabled := none
    timeout := none
    delay_after := none
    screenshot_on_failure := none }

/-- A second enabled suite entry. -/
def entryB : TestEntry :=
  { module := "tests.outlook_test.OutlookTest"
    enabled := some true
    timeout := none
    delay_after := none
    screenshot_on_failure := none }

/-- An environment in which every module reference fails to resolve. -/
def envLoadFail : TestEnv :=
  { load_class := fun _ => false
    name_of := fun e => e.module
    exec_outcome := fun _ => .ok [] }

/-- An environment whose tests resolve and pass after marking started. -/
def envPass : TestEnv :=
  { load_class := fun _ => true
    name_of := fun e => e.module
    exec_outcome := fun _ => .ok [.started 0, .passed 1 "ok"] }

/-- An environment whose tests resolve but whose run() returns without ever
marking a terminal status, leaving the record in its initial "not_run". -/
def envNotRun : TestEnv :=
  { load_class := fun _ => true
    name_of := fun e => e.module
    exec_outcome := fun _ => .ok [] }

/-- The interrupt flag of an undisturbed run. -/
def flagNever : ℕ → Bool := fun _ => false

/-- An interrupt signal delivered while the first entry executes: the flag
reads false at iteration 0 and true from iteration 1 on. -/
def flagAfterOne : ℕ → Bool := fun i => decide (1 ≤ i)

/-- An environment whose tests resolve but raise during construction or
run(), as _run_single_test's except branch sees them. -/
def envCrash : TestEnv :=
  { load_class := fun _ => true
    name_of := fun e => e.module
    exec_outcome := fun _ => .error "boom" }

/-- A concrete run outcome: one passed and two failed results, as produced by
three tests that mark started and then a terminal status. -/
def resultsOneOfThree : List TestResult :=
  [ runOps "a" [.started 0, .passed 1 ""],
    runOps "b" [.started 0, .failed 1 "boom" none],
    runOps "c" [.started 0, .failed 1 "boom" none] ]

/-- The status transitions claim C6 allows, with the claim's "pending" read as
the record's initial status, which the code spells "not_run". -/
def claimedStep (a b : String) : Bool :=
  (a == "not_run" && b == "running") || (a == "running" && b == "passed")
    || (a == "running" && b == "failed") || (a == "not_run" && b == "skipped")

/-- Whether every adjacent pair of a status sequence is an allowed step. -/
def chainOk (step : String → String → Bool) : List String → Bool
  | [] => true
  | [_] => true
  | a :: b :: rest => step a b && chainOk step (b :: rest)

/-! Helper lemmas shared by the claim theorems below. -/

theorem run_all_tests_foldl (env : TestEnv) (tests : List TestEntry)
    (acc : List TestResult) :
    tests.foldl
        (fun results tc =>
          if tc.enabledValue then results ++ [runSingleTest env tc] else results)
        acc
      = acc ++ (tests.filter TestEntry.enabledValue).map (runSingleTest env) := by
  induction tests generalizing acc with
  | nil => simp
  | cons t ts ih =>
    by_cases h : t.enabledValue
    · simp [List.foldl_cons, h, ih, List.filter_cons]
    · simp [List.foldl_cons, h, ih, List.filter_cons]

theorem run_all_tests_eq (env : TestEnv) (tests : List TestEntry) :
    run_all_tests env tests
      = (tests.filter TestEntry.enabledValue).map (runSingleTest env) := by
  simpa using run_all_tests_foldl env tests []


theorem completedCount_zero (g : ℕ → Bool) : completedCount g 0 = 0 := rfl

theorem completedCount_succ (g : ℕ → Bool) (m : ℕ) :
    completedCount g (m + 1)
      = if g 0 then 0 else completedCount (fun j => g (j + 1)) m + 1 := by
  unfold completedCount
  rw [List.range_succ_eq_map]
  by_cases h : g 0
  · simp [List.takeWhile_cons, h]
  · have hcomp : ((fun i => !g i) ∘ Nat.succ) = (fun i => !g (i + 1)) := by
      funext i
      rfl
    simp [List.takeWhile_cons, h, List.takeWhile_map, hcomp]

theorem completedCount_le (g : ℕ → Bool) (n : ℕ) : completedCount g n ≤ n := by
  calc ((List.range n).takeWhile (fun i => !g i)).length
      ≤ (List.range n).length := (List.takeWhile_sublist _).length_le
    _ = n := List.length_range n

theorem traceFrom_succ (i k n : ℕ) :
    traceFrom i (k + 1) (n + 1)
      = RunEvent.check i false :: RunEvent.execute i :: traceFrom (i + 1) k n := by
  unfold traceFrom
  rw [List.range_succ_eq_map]
  have hfun : ((fun j => [RunEvent.check (i + j) false, RunEvent.execute (i + j)]) ∘ Nat.succ)
      = fun j => [RunEvent.check ((i + 1) + j) false, RunEvent.execute ((i + 1) + j)] := by
    funext j
    show [RunEvent.check (i + (j + 1)) false, RunEvent.execute (i + (j + 1))] = _
    have harith : i + (j + 1) = (i + 1) + j := by omega
    rw [harith]
  have hidx : i + (k + 1) = (i + 1) + k := by omega
  simp only [List.map_cons, List.flatten_cons, List.map_map, hfun, Nat.add_zero,
    Nat.add_lt_add_iff_right, hidx, List.cons_append, List.nil_append]

/-- Closed form of the run() loop: it completes exactly the first
completedCount entries (those reached before a true flag reading), records
one result per completed entry via the single-entry execution, and its
observable trace is one flag check per started iteration, each followed by the
entry execution when the check read false. -/
theorem runLoopFrom_spec (env : TestEnv) (flag : ℕ → Bool) (l : List TestEntry)
    (i : ℕ) :
    runLoopFrom env flag i l
      = ((l.take (completedCount (fun j => flag (i + j)) l.length)).map (runSingleTest env),
         traceFrom i (completedCount (fun j => flag (i + j)) l.length) l.length) := by
  induction l generalizing i with
  | nil => simp [runLoopFrom, completedCount_zero, traceFrom]
  | cons e rest ih =>
    have hlen : (e :: rest).length = rest.length + 1 := rfl
    by_cases h0 : flag i
    · have hk : completedCount (fun j => flag (i + j)) (e :: rest).length = 0 := by
        rw [hlen, completedCount_succ]
        simp [h0]
      rw [hk]
      simp [runLoopFrom, h0, traceFrom]
    · have harg : (fun j => flag (i + (j + 1))) = fun j => flag ((i + 1) + j) := by
        funext j
        have harith : i + (j + 1) = (i + 1) + j := by omega
        rw [harith]
      have hk : completedCount (fun j => flag (i + j)) (e :: rest).length
          = completedCount (fun j => flag ((i + 1) + j)) rest.length + 1 := by
        rw [hlen, completedCount_succ]
        simp only [Nat.add_zero, h0, if_false]
        rw [show (fun j => flag (i + (j + 1))) = fun j => flag ((i + 1) + j) from harg]
        simp
      rw [hk, hlen]
      have hrec := ih (i + 1)
      simp only [runLoopFrom, h0, Bool.false_eq_true, if_false, hrec]
      rw [List.take_succ_cons, List.map_cons, traceFrom_succ]

theorem runLoop_spec (env : TestEnv) (flag : ℕ → Bool) (tests : List TestEntry) :
    runLoop env flag tests
      = (((get_enabled_tests tests).take (completedCount flag (enabledCount tests))).map
           (runSingleTest env),
         traceFrom 0 (completedCount flag (enabledCount tests)) (enabledCount tests)) := by
  have h := runLoopFrom_spec env flag (get_enabled_tests tests) 0
  have harg : (fun j => flag (0 + j)) = flag := by
    funext j
    simp
  rw [harg] at h
  simpa [runLoop, enabledCount] using h

theorem summary_success_rate_pos (results : List TestResult) (h : 0 < results.length) :
    (summary results).success_rate
      = ((summary results).passed : ℚ) / ((summary results).total : ℚ) * 100 := by
  simp [summary, h]

theorem countP_terminal (l : List TestResult)
    (h : ∀ r ∈ l, r.status = "passed" ∨ r.status = "failed" ∨ r.status = "skipped") :
    l.countP (fun r => r.status == "passed") + l.countP (fun r => r.status == "failed")
      + l.countP (fun r => r.status == "skipped") = l.length := by
  induction l with
  | nil => simp
  | cons r rs ih =>
    have hrs : ∀ x ∈ rs, x.status = "passed" ∨ x.status = "failed" ∨ x.status = "skipped" :=
      fun x hx => h x (List.mem_cons_of_mem r hx)
    have ihh := ih hrs
    rcases h r (List.mem_cons_self r rs) with h1 | h1 | h1 <;>
      · simp [List.countP_cons, h1,
          show (("passed" : String) == "passed") = true from rfl,
          show (("passed" : String) == "failed") = false from rfl,
          show (("passed" : String) == "skipped") = false from rfl,
          show (("failed" : String) == "passed") = false from rfl,
          show (("failed" : String) == "failed") = true from rfl,
          show (("failed" : String) == "skipped") = false from rfl,
          show (("skipped" : String) == "passed") = false from rfl,
          show (("skipped" : String) == "failed") = false from rfl,
          show (("skipped" : String) == "skipped") = true from rfl]
        omega

theorem runExit_cases (env : TestEnv) (flag : ℕ → Bool) (tests : List TestEntry) :
    runExit env flag tests false
      = if 0 < (runResults env flag tests).countP (fun r => r.status == "failed") then 1
        else if runResults env flag tests = [] then 2 else 0 := by
  simp [runExit, exitFromSummary, get_summary, List.length_eq_zero]

theorem decodeTestDict_to_dict (r : TestResult) :
    decodeTestDict r.to_dict = some (r.status, r.message, r.duration_seconds) := rfl

theorem decodeTestList_to_dict (results : List TestResult) :
    decodeTestList (results.map TestResult.to_dict)
      = some (results.map (fun r => (r.status, r.message, r.duration_seconds))) := by
  induction results with
  | nil => rfl
  | cons r rs ih => simp [decodeTestList, decodeTestDict_to_dict, ih]

theorem runResults_length (env : TestEnv) (flag : ℕ → Bool) (tests : List TestEntry) :
    (runResults env flag tests).length = completedCount flag (enabledCount tests) := by
  rw [runResults, runLoop_spec]
  simp only [List.length_map, List.length_take]
  exact Nat.min_eq_left (completedCount_le flag (enabledCount tests))

/-! The claims. -/

/-- C1: for every configured suite, run_all_tests attempts exactly the entries
whose enabled flag is true, in original suite order (the result list is the
in-order image of the enabled sublist under the single-entry execution, so a
disabled entry is never resolved or instantiated and produces no result
record); an entry with no enabled key counts as enabled, and a disabled entry
at the head of the suite contributes nothing to the run. -/
theorem C1_enabled_entries (env : TestEnv) (tests rest : List TestEntry)
    (m : String) (t d : Option ℚ) (s : Option Bool) :
    run_all_tests env tests = (tests.filter TestEntry.enabledValue).map (runSingleTest env)
    ∧ TestEntry.enabledValue
        { module := m, enabled := none, timeout := t,
          delay_after := d, screenshot_on_failure := s } = true
    ∧ run_all_tests env
        ({ module := m, enabled := some false, timeout := t,
           delay_after := d, screenshot_on_failure := s } :: rest)
        = run_all_tests env rest := by
  refine ⟨run_all_tests_eq env tests, rfl, ?_⟩
  rw [run_all_tests_eq, run_all_tests_eq]
  simp [List.filter_cons, TestEntry.enabledValue]

/-- C2: an entry whose module reference cannot be resolved yields a failed
result with the captured message "Failed to load test module"; an entry whose
construction or run() raises yields a failed result with message
"Test crashed" and the exception text as detail; and the loop records exactly
one result per enabled entry regardless, so a per-entry failure never aborts
the remaining entries. -/
theorem C2_failure_isolation (env : TestEnv) (e : TestEntry) (tests : List TestEntry) :
    (env.load_class e = false →
        (runSingleTest env e).status = "failed"
        ∧ (runSingleTest env e).message = "Failed to load test module")
    ∧ (∀ msg, env.load_class e = true → env.exec_outcome e = .error msg →
        (runSingleTest env e).status = "failed"
        ∧ (runSingleTest env e).message = "Test crashed"
        ∧ (runSingleTest env e).error_details = some msg)
    ∧ (run_all_tests env tests).length = (tests.filter TestEntry.enabledValue).length := by
  refine ⟨?_, ?_, ?_⟩
  · intro h
    simp [runSingleTest, runSingleOps, h, runOps, TestResult.apply, TestResult.mark_failed,
      TestResult.make]
  · intro msg hload herr
    simp [runSingleTest, runSingleOps, hload, herr, runOps, TestResult.apply,
      TestResult.mark_failed, TestResult.make]
  · rw [run_all_tests_eq]
    simp

/-- C2 witness: a concrete unresolvable entry and a concrete crashing entry,
each producing the claimed failed result. -/
theorem C2_failure_isolation_witness :
    ((runSingleTest envLoadFail entryA).status = "failed"
      ∧ (runSingleTest envLoadFail entryA).message = "Failed to load test module")
    ∧ ((runSingleTest envCrash entryB).status = "failed"
      ∧ (runSingleTest envCrash entryB).message = "Test crashed"
      ∧ (runSingleTest envCrash entryB).error_details = some "boom") :=
  ⟨(C2_failure_isolation envLoadFail entryA []).1 rfl,
   (C2_failure_isolation envCrash entryB []).2.1 "boom" rfl rfl⟩

/-- C3 counterexample: on a run with 1 passed of 3 results the core summary's
success_rate is the exact ratio 100/3, which is not the one-decimal rounding
333/10 the claim states, so the claim fails on core/test_runner.py
TestRunner.summary. -/
theorem C3_counterexample :
    (summary resultsOneOfThree).success_rate
      ≠ claimedSuccessRate (summary resultsOneOfThree).passed
          (summary resultsOneOfThree).total := by
  have ht : (summary resultsOneOfThree).total = 3 := by decide
  have hp : (summary resultsOneOfThree).passed = 1 := by decide
  have hlen : 0 < resultsOneOfThree.length := by decide
  rw [summary_success_rate_pos resultsOneOfThree hlen, hp, ht]
  have hfloor : (⌊((1 : ℚ) / 3 * 100 * 10)⌋ : ℤ) = 333 := by
    rw [Int.floor_eq_iff]
    constructor <;> norm_num
  simp only [claimedSuccessRate, roundHalfEvenTenths]
  norm_num [hfloor]

/-- C3 (amended): reporter.py Reporter.get_summary renders the success rate as
passed/total*100 rounded to one decimal place and as 0 when total is 0,
exactly as the claim states; core/test_runner.py TestRunner.summary instead
returns 0 when total is 0 and otherwise the exact unrounded ratio
passed/total*100. -/
theorem C3_success_rate (results : List TestResult) :
    ((get_summary results).success_rate_tenths : ℚ) / 10
        = claimedSuccessRate (get_summary results).passed (get_summary results).total_tests
    ∧ (summary results).success_rate
        = (if (summary results).total = 0 then 0
           else ((summary results).passed : ℚ) / ((summary results).total : ℚ) * 100) := by
  constructor
  · rcases Nat.eq_zero_or_pos results.length with h | h
    · simp [get_summary, claimedSuccessRate, h]
    · simp [get_summary, claimedSuccessRate, h, h.ne']
  · rcases Nat.eq_zero_or_pos results.length with h | h
    · simp [summary, h]
    · simp [summary, h, h.ne']

/-- C4 counterexample: a two-entry suite interrupted while the first entry
executes (the flag reads true from iteration 1 on, so the second entry is
never reached) completes with one passed result and exits with code 0, while
the claim's case analysis demands 130 for a run interrupted by the user. -/
theorem C4_counterexample :
    completedCount flagAfterOne (enabledCount [entryA, entryB])
        < enabledCount [entryA, entryB]
    ∧ runExit envPass flagAfterOne [entryA, entryB] false = 0
    ∧ claimedExit true false
        (get_summary (runResults envPass flagAfterOne [entryA, entryB])) = 130 := by
  decide

/-- C4 (amended): the exit code of a completed run derives from the summary
alone: 1 when any recorded result failed, else 2 when no result was recorded,
else 0 — an interrupt observed during the run does not alter this mapping; a
fatal orchestrator-level error yields 3; main() returns 130 only for a
KeyboardInterrupt escaping to it (possible only before the orchestrator
installs its signal handlers) and 1 for any other exception escaping run(). -/
theorem C4_exit_codes (env : TestEnv) (flag : ℕ → Bool) (tests : List TestEntry)
    (mainFatal : Bool) :
    runExit env flag tests false
        = (if 0 < (runResults env flag tests).countP (fun r => r.status == "failed") then 1
           else if runResults env flag tests = [] then 2 else 0)
    ∧ runExit env flag tests true = 3
    ∧ mainExit env flag tests false true mainFatal = 130
    ∧ mainExit env flag tests false false true = 1
    ∧ mainExit env flag tests false false false = runExit env flag tests false :=
  ⟨runExit_cases env flag tests, rfl, rfl, rfl, rfl⟩

/-- C5: cooperative cancellation: the run's result list is exactly the
in-order image of the first completedCount enabled entries — those whose
iteration began before the interrupt flag read true — so an entry in progress
when the signal arrives finishes and is recorded, no later entry is attempted,
and the report covers exactly the completed entries; the event trace shows the
flag is read exactly once per loop iteration, at the entry boundary, never
mid-entry. -/
theorem C5_cooperative_cancellation (env : TestEnv) (flag : ℕ → Bool)
    (tests : List TestEntry) :
    runResults env flag tests
        = ((get_enabled_tests tests).take (completedCount flag (enabledCount tests))).map
            (runSingleTest env)
    ∧ (runLoop env flag tests).2
        = traceFrom 0 (completedCount flag (enabledCount tests)) (enabledCount tests)
    ∧ (runResults env flag tests).length = completedCount flag (enabledCount tests) := by
  have h := runLoop_spec env flag tests
  exact ⟨by rw [runResults, h], by rw [h], runResults_length env flag tests⟩

/-- C6 counterexample: the result the orchestrator records for an entry whose
module reference fails to resolve passes through the statuses
["not_run", "failed"] — a direct transition from the initial status to failed
without ever being running — which the claim's allowed transitions
(pending to running to passed or failed, or pending to skipped) exclude. -/
theorem C6_counterexample :
    chainOk claimedStep
        (statusTrajectory (runSingleOps envLoadFail entryA).1
          (runSingleOps envLoadFail entryA).2)
      = false := by
  decide

/-- C6 (amended): a test following the standard mark sequences moves its
record along not_run to running to passed, not_run to running to failed, or
not_run to skipped directly (the code's initial status is spelled "not_run",
not "pending"); in addition the orchestrator's load-failure and crash paths
mark a fresh record failed directly, giving not_run to failed; and once a
result is appended to the run's result list it is never mutated again: the
run's output is exactly the per-entry computed records. -/
theorem C6_transitions (env : TestEnv) (tests : List TestEntry) (name : String)
    (t1 t2 : ℚ) (msg reason : String) (details : Option String) :
    statusTrajectory name [.started t1, .passed t2 msg]
        = ["not_run", "running", "passed"]
    ∧ statusTrajectory name [.started t1, .failed t2 msg details]
        = ["not_run", "running", "failed"]
    ∧ statusTrajectory name [.skipped reason] = ["not_run", "skipped"]
    ∧ statusTrajectory name [.failed t1 msg details] = ["not_run", "failed"]
    ∧ run_all_tests env tests
        = (tests.filter TestEntry.enabledValue).map (runSingleTest env) :=
  ⟨rfl, rfl, rfl, rfl, run_all_tests_eq env tests⟩

/-- C7 counterexample: a single enabled entry whose run() returns without
marking any terminal status leaves its recorded result in status "not_run";
with no interruption the claimed identity passed + failed + skipped +
never-reached = enabled total reads 0 = 1 and fails. -/
theorem C7_counterexample :
    (summary (runResults envNotRun flagNever [entryA])).passed
      + (summary (runResults envNotRun flagNever [entryA])).failed
      + (summary (runResults envNotRun flagNever [entryA])).skipped
      + unreachedCount flagNever [entryA]
      ≠ enabledCount [entryA] := by
  decide

/-- C7 (amended): unconditionally, on every run the number of recorded results
plus the enabled entries never reached due to interruption equals the total
number of configured enabled entries; and when every recorded result carries a
terminal status (passed, failed or skipped) the claimed identity passed +
failed + skipped + never-reached = enabled total follows. -/
theorem C7_conservation (env : TestEnv) (flag : ℕ → Bool) (tests : List TestEntry) :
    (runResults env flag tests).length + unreachedCount flag tests = enabledCount tests
    ∧ ((∀ r ∈ runResults env flag tests,
          r.status = "passed" ∨ r.status = "failed" ∨ r.status = "skipped") →
        (summary (runResults env flag tests)).passed
          + (summary (runResults env flag tests)).failed
          + (summary (runResults env flag tests)).skipped
          + unreachedCount flag tests
          = enabledCount tests) := by
  have hlen := runResults_length env flag tests
  have hle := completedCount_le flag (enabledCount tests)
  have hfirst : (runResults env flag tests).length + unreachedCount flag tests
      = enabledCount tests := by
    rw [hlen]
    unfold unreachedCount
    omega
  refine ⟨hfirst, ?_⟩
  intro hterm
  have hsum := countP_terminal (runResults env flag tests) hterm
  have hproj : (summary (runResults env flag tests)).passed
      + (summary (runResults env flag tests)).failed
      + (summary (runResults env flag tests)).skipped
      = (runResults env flag tests).length := hsum
  omega

/-- C7 witness: a one-entry suite whose test passes, undisturbed: 1 recorded
result, 0 unreached, and 1 + 0 + 0 + 0 = 1 enabled entry; and the
unconditional recorded-plus-unreached identity also holds on the run whose
sole result stays not_run (1 + 0 = 1). -/
theorem C7_conservation_witness :
    ((runResults envPass flagNever [entryA]).length + unreachedCount flagNever [entryA]
        = enabledCount [entryA]
      ∧ (summary (runResults envPass flagNever [entryA])).passed
          + (summary (runResults envPass flagNever [entryA])).failed
          + (summary (runResults envPass flagNever [entryA])).skipped
          + unreachedCount flagNever [entryA]
          = enabledCount [entryA])
    ∧ (runResults envNotRun flagNever [entryA]).length + unreachedCount flagNever [entryA]
        = enabledCount [entryA] :=
  ⟨⟨(C7_conservation envPass flagNever [entryA]).1,
    (C7_conservation envPass flagNever [entryA]).2 (by decide)⟩,
   (C7_conservation envNotRun flagNever [entryA]).1⟩

/-- C8: the structured artifact written by reporter.py save_report parses back
to the original per-test status, message and duration fields for every result
list; but core/reporter.py generate_json_report reads the attributes details
and duration, which the TestResult it imports from tests.base_test never
defines (its fields are error_details and duration_seconds), so that
serializer raises AttributeError on every nonempty result list and produces no
report at all. -/
theorem C8_report_roundtrip (results : List TestResult) (r : TestResult) :
    decodeResults (saveReportJson results)
        = some (results.map (fun x => (x.status, x.message, x.duration_seconds)))
    ∧ r.getattr "details" = none
    ∧ r.getattr "duration" = none
    ∧ generate_json_report [r] = none := by
  refine ⟨?_, rfl, rfl, rfl⟩
  have hfield : (saveReportJson results).getField "results"
      = some (.jarr (results.map TestResult.to_dict)) := rfl
  simp only [decodeResults, hfield, decodeTestList_to_dict]

/-- C9: every notification sink failure — an HTTP error status or a
network-level request failure — is absorbed by the post call, which returns
false instead of raising, and the run's exit code is the same function of the
run outcome whatever the sink outcomes are: posting never alters the exit
status. -/
theorem C9_sink_isolation (env : TestEnv) (flag : ℕ → Bool) (tests : List TestEntry)
    (cfg : ReportingConfig) (o1 o2 p1 p2 : SinkOutcome) (fatal : Bool) :
    (runWithSinks env flag tests cfg o1 o2 fatal).1
        = (runWithSinks env flag tests cfg p1 p2 fatal).1
    ∧ (runWithSinks env flag tests cfg o1 o2 fatal).1 = runExit env flag tests fatal
    ∧ post_to_api (.httpFailure 500) = false
    ∧ post_to_api (.requestFailure "connection refused") = false
    ∧ post_to_teams (.httpFailure 500) = false
    ∧ post_to_teams (.requestFailure "connection refused") = false
    ∧ post_to_api .ok = true
    ∧ post_to_teams .ok = true :=
  ⟨rfl, rfl, rfl, rfl, rfl, rfl, rfl, rfl⟩

/-- C10: the summary's total is the length of the result list and each
per-status count counts exactly the results whose status equals the literal
"passed", "failed" or "skipped"; appending a result left in the initial
status "not_run" increments total and none of the three counts; and on a run
whose test returns without marking a terminal status the three counts sum to
strictly less than total. -/
theorem C10_status_counts (results : List TestResult) (r : TestResult) :
    (summary results).total = results.length
    ∧ (summary results).passed = results.countP (fun x => x.status == "passed")
    ∧ (summary results).failed = results.countP (fun x => x.status == "failed")
    ∧ (summary results).skipped = results.countP (fun x => x.status == "skipped")
    ∧ (summary (results ++ [{ r with status := "not_run" }])).total
        = (summary results).total + 1
    ∧ (summary (results ++ [{ r with status := "not_run" }])).passed
        = (summary results).passed
    ∧ (summary (results ++ [{ r with status := "not_run" }])).failed
        = (summary results).failed
    ∧ (summary (results ++ [{ r with status := "not_run" }])).skipped
        = (summary results).skipped
    ∧ (summary (run_all_tests envNotRun [entryA])).passed
        + (summary (run_all_tests envNotRun [entryA])).failed
        + (summary (run_all_tests envNotRun [entryA])).skipped
        < (summary (run_all_tests envNotRun [entryA])).total := by
  refine ⟨rfl, rfl, rfl, rfl, ?_, ?_, ?_, ?_, by decide⟩
  · simp [summary]
  · simp [summary, List.countP_append,
      show (("not_run" : String) == "passed") = false from rfl]
  · simp [summary, List.countP_append,
      show (("not_run" : String) == "failed") = false from rfl]
  · simp [summary, List.countP_append,
      show (("not_run" : String) == "skipped") = false from rfl]

end MacMocker
